import Mathlib

/-!
Shallow embedding of CefSharp.Core/ManagedCefBrowserAdapter.h.

The adapter owns a native client adapter handle, an optional WCF browser
process service host, a back reference to the web browser, a JavaScript
object repository, a callback factory, a method runner queue, and an
optional browser wrapper.  The destructor tears these down in a fixed
order; the finalizer releases only the native client adapter handle.

Managed references are modelled as Option values (nullptr = none), the
reference-counted MCefRefPtr as an Option as well (assigning nullptr to
an already-null MCefRefPtr releases nothing).  The destructor is modelled
as a function from state to state that also emits a trace of the actions
it actually performs, plus a flag recording whether an exception escaped
(the only fallible call is the WCF service host graceful Close, which is
a framework call that can exceed its timeout; that outcome is supplied
as an oracle argument).
-/

namespace ManagedCef

/-- The two client adapter variants selected at construction:
RenderClientAdapter for off-screen rendering, ClientAdapter otherwise. -/
inductive ClientAdapterKind
  | windowed
  | render
deriving DecidableEq, Repr

/-- Lifecycle state of the MethodRunnerQueue as seen from the adapter:
which scheduler it was built against, whether it was built over the
object repository, whether the MethodInvocationComplete event is
subscribed, and whether Start was called. -/
structure MethodRunnerQueueState where
  scheduler : Nat
  repoBound : Bool
  subscribed : Bool
  started : Bool
deriving DecidableEq, Repr

/-- The fields of ManagedCefBrowserAdapter.  Handles and managed
references are Options; the object repository is tracked as a presence
flag.  The callback factory records which client adapter variant owns
the pending task repository it was wired to. -/
structure AdapterState where
  clientAdapter : Option ClientAdapterKind
  browserProcessServiceHost : Option Nat
  webBrowserInternal : Option Nat
  javaScriptObjectRepository : Bool
  javascriptCallbackFactory : Option ClientAdapterKind
  methodRunnerQueue : Option MethodRunnerQueueState
  browserWrapper : Option Nat
  isDisposed : Bool
deriving DecidableEq, Repr

/-- The global CefSharpSettings consulted by the destructor: WcfEnabled
and WcfTimeout (a TimeSpan, modelled as ticks; the code compares it
against TimeSpan.Zero). -/
structure CefSharpSettings where
  wcfEnabled : Bool
  wcfTimeout : Int
deriving DecidableEq, Repr

/-- Observable actions of the adapter lifecycle, in the order the
destructor and the other entry points perform them. -/
inductive Event
  | setDisposed
  | unsubscribeQueue
  | stopQueue
  | releaseClientAdapter
  | closeBrowser (force : Bool)
  | releaseBrowserWrapper
  | closeHost (timeout : Int)
  | abortHost
  | releaseWebBrowser
  | releaseRepository
  | retainBrowser (browser : Nat)
  | releaseBrowserImmediately
deriving DecidableEq, Repr

/-- The constructor: selects the client adapter variant from
offScreenRendering, stores the web browser back reference, creates the
object repository, creates the callback factory wired to the client
adapter pending task repository, creates the method runner queue against
the given scheduler, subscribes to its completion event and starts it;
the disposed flag starts false. -/
def construct (webBrowserInternal : Nat) (offScreenRendering : Bool)
    (taskScheduler : Nat) : AdapterState :=
  let kind := if offScreenRendering then ClientAdapterKind.render
              else ClientAdapterKind.windowed
  { clientAdapter := some kind
    browserProcessServiceHost := none
    webBrowserInternal := some webBrowserInternal
    javaScriptObjectRepository := true
    javascriptCallbackFactory := some kind
    methodRunnerQueue := some
      { scheduler := taskScheduler, repoBound := true,
        subscribed := true, started := true }
    browserWrapper := none
    isDisposed := false }

/-- The finalizer !ManagedCefBrowserAdapter: assigns nullptr to the
MCefRefPtr client adapter field.  A native release happens exactly when
the stored pointer was non-null. -/
def finalizeAdapter (s : AdapterState) : AdapterState × List Event :=
  ({ s with clientAdapter := none },
   if s.clientAdapter.isSome then [Event.releaseClientAdapter] else [])

/-- Result of running the destructor: the resulting field state, the
trace of actions performed, and whether an exception escaped before the
destructor body finished. -/
structure DisposeResult where
  state : AdapterState
  trace : List Event
  threw : Bool
deriving DecidableEq, Repr

/-- The statements of the destructor after the service host block:
clear the web browser back reference, then delete and clear the object
repository (delete on a null handle releases nothing). -/
def disposeTail (s : AdapterState) (t : List Event) : DisposeResult :=
  let t5 := if s.webBrowserInternal.isSome then [Event.releaseWebBrowser] else []
  let s5 : AdapterState := { s with webBrowserInternal := none }
  let t6 := if s5.javaScriptObjectRepository then [Event.releaseRepository] else []
  let s6 : AdapterState := { s5 with javaScriptObjectRepository := false }
  { state := s6, trace := t ++ t5 ++ t6, threw := false }

/-- The destructor ~ManagedCefBrowserAdapter.  In order: set the
disposed flag; if the method runner queue is non-null, unsubscribe from
its completion event, stop it and clear the field; call the finalizer
(releasing the MCefRefPtr client adapter reference before CloseBrowser);
if the browser wrapper is non-null, call CloseBrowser with forceClose
true, delete the wrapper and clear the field; if WcfEnabled and the
service host is non-null, Close it with WcfTimeout when the timeout is
greater than TimeSpan.Zero (a framework call that may exceed the
timeout and throw, in which case the destructor unwinds and no later
statement runs) or Abort it otherwise, then clear the field; finally
clear the web browser back reference and delete the object repository.
The closeTimesOut oracle says whether the graceful Close exceeds its
timeout. -/
def dispose (cfg : CefSharpSettings) (closeTimesOut : Bool)
    (s : AdapterState) : DisposeResult :=
  let s1 : AdapterState := { s with isDisposed := true }
  let qs :=
    if s1.methodRunnerQueue.isSome then
      ({ s1 with methodRunnerQueue := none },
       [Event.unsubscribeQueue, Event.stopQueue])
    else (s1, ([] : List Event))
  let fs := finalizeAdapter qs.1
  let bs :=
    if fs.1.browserWrapper.isSome then
      ({ fs.1 with browserWrapper := none },
       [Event.closeBrowser true, Event.releaseBrowserWrapper])
    else (fs.1, ([] : List Event))
  let t0 := Event.setDisposed :: (qs.2 ++ fs.2 ++ bs.2)
  if cfg.wcfEnabled && bs.1.browserProcessServiceHost.isSome then
    if 0 < cfg.wcfTimeout then
      if closeTimesOut then
        { state := bs.1, trace := t0 ++ [Event.closeHost cfg.wcfTimeout],
          threw := true }
      else
        disposeTail { bs.1 with browserProcessServiceHost := none }
          (t0 ++ [Event.closeHost cfg.wcfTimeout])
    else
      disposeTail { bs.1 with browserProcessServiceHost := none }
        (t0 ++ [Event.abortHost])
  else
    disposeTail bs.1 t0

/-- Modelled from the spec: the body of OnAfterBrowserCreated is only
declared in the excerpt.  Per the spec it records the live browser
handle; if disposal is in progress or complete the handle must not be
retained and must be released immediately, with no mutation of the
adapter state. -/
def onAfterBrowserCreated (s : AdapterState) (browser : Nat) :
    AdapterState × List Event :=
  if s.isDisposed then (s, [Event.releaseBrowserImmediately])
  else ({ s with browserWrapper := some browser },
        [Event.retainBrowser browser])

/-- Modelled from the spec: the MethodRunnerQueue implementation is not
in the excerpt (only the field and property declarations are).  Per the
spec it is a single-consumer FIFO work queue: requests accumulate while
the queue is not started, and execution produces one completion
notification per request in enqueue order. -/
structure MethodRunnerQueueModel where
  pending : List Nat
  running : Bool
  completions : List Nat
deriving DecidableEq, Repr

/-- Modelled from the spec: an empty, not yet started queue. -/
def mrqEmpty : MethodRunnerQueueModel :=
  { pending := [], running := false, completions := [] }

/-- Modelled from the spec: enqueue appends the request at the back of
the pending list. -/
def mrqEnqueue (q : MethodRunnerQueueModel) (r : Nat) :
    MethodRunnerQueueModel :=
  { q with pending := q.pending ++ [r] }

/-- Modelled from the spec: start drains the pending requests in FIFO
order, appending one completion notification per request in that same
order. -/
def mrqStart (q : MethodRunnerQueueModel) : MethodRunnerQueueModel :=
  { pending := [], running := true,
    completions := q.completions ++ q.pending }

/-- Rank of each destructor action in the teardown protocol: step 1 is
the disposed flag, step 2 the queue, step 3 the client adapter release,
step 4 the browser close and wrapper release, step 5 the service host,
step 6 the back reference and the repository. -/
def stepRank : Event → Nat
  | Event.setDisposed => 0
  | Event.unsubscribeQueue => 1
  | Event.stopQueue => 2
  | Event.releaseClientAdapter => 3
  | Event.closeBrowser _ => 4
  | Event.releaseBrowserWrapper => 5
  | Event.closeHost _ => 6
  | Event.abortHost => 6
  | Event.releaseWebBrowser => 7
  | Event.releaseRepository => 8
  | Event.retainBrowser _ => 9
  | Event.releaseBrowserImmediately => 9

/-- Events that release, stop, close or abort a resource (used to state
that no resource is torn down twice). -/
def isResourceRelease : Event → Bool
  | Event.unsubscribeQueue => true
  | Event.stopQueue => true
  | Event.releaseClientAdapter => true
  | Event.closeBrowser _ => true
  | Event.releaseBrowserWrapper => true
  | Event.closeHost _ => true
  | Event.abortHost => true
  | Event.releaseWebBrowser => true
  | Event.releaseRepository => true
  | _ => false

/-- Events touching the service host. -/
def isHostEvent : Event → Bool
  | Event.closeHost _ => true
  | Event.abortHost => true
  | _ => false

/-- Whether the destructor run throws: exactly when the graceful Close
is reached (WcfEnabled, host present, positive timeout) and the Close
exceeds its timeout. -/
def disposeThrew (cfg : CefSharpSettings) (o : Bool) (s : AdapterState) : Bool :=
  o && (cfg.wcfEnabled && s.browserProcessServiceHost.isSome)
    && decide (0 < cfg.wcfTimeout)

/-- Closed form of the destructor: resulting state, trace and thrown
flag as functions of the initial fields and the settings. -/
lemma dispose_eq (cfg : CefSharpSettings) (o : Bool) (s : AdapterState) :
    dispose cfg o s =
      { state :=
          { clientAdapter := none
            browserProcessServiceHost :=
              if disposeThrew cfg o s then s.browserProcessServiceHost
              else if cfg.wcfEnabled then none
              else s.browserProcessServiceHost
            webBrowserInternal :=
              if disposeThrew cfg o s then s.webBrowserInternal else none
            javaScriptObjectRepository :=
              if disposeThrew cfg o s then s.javaScriptObjectRepository
              else false
            javascriptCallbackFactory := s.javascriptCallbackFactory
            methodRunnerQueue := none
            browserWrapper := none
            isDisposed := true }
        trace :=
          Event.setDisposed ::
          ((if s.methodRunnerQueue.isSome then
              [Event.unsubscribeQueue, Event.stopQueue] else [])
           ++ (if s.clientAdapter.isSome then
                [Event.releaseClientAdapter] else [])
           ++ (if s.browserWrapper.isSome then
                [Event.closeBrowser true, Event.releaseBrowserWrapper] else [])
           ++ (if cfg.wcfEnabled && s.browserProcessServiceHost.isSome then
                 if 0 < cfg.wcfTimeout then [Event.closeHost cfg.wcfTimeout]
                 else [Event.abortHost]
               else [])
           ++ (if disposeThrew cfg o s then []
               else (if s.webBrowserInternal.isSome then
                      [Event.releaseWebBrowser] else [])
                    ++ (if s.javaScriptObjectRepository then
                         [Event.releaseRepository] else [])))
        threw := disposeThrew cfg o s } := by
  rcases s with ⟨ca, host, wbi, repo, fac, mrq, bw, dis⟩
  rcases cfg with ⟨we, wt⟩
  simp only [dispose, disposeTail, finalizeAdapter, disposeThrew]
  cases mrq <;> cases ca <;> cases bw <;> cases host <;> cases we <;>
    cases repo <;> cases wbi <;> cases o <;>
    simp_all <;> split_ifs <;> simp_all

/-- A conditional block is a sublist of its unconditional form. -/
lemma ite_sublist (c : Prop) [Decidable c] (l : List Event) :
    List.Sublist (if c then l else []) l := by
  split
  · exact List.Sublist.refl l
  · exact List.nil_sublist l

/-- The full teardown trace, with every block present, for a given
service host action. -/
def masterTrace (e : Event) : List Event :=
  Event.setDisposed ::
    ([Event.unsubscribeQueue, Event.stopQueue]
     ++ [Event.releaseClientAdapter]
     ++ [Event.closeBrowser true, Event.releaseBrowserWrapper]
     ++ [e]
     ++ ([Event.releaseWebBrowser] ++ [Event.releaseRepository]))

/-- The full teardown trace is strictly rank increasing whenever the
service host action has rank 6. -/
lemma masterTrace_pairwise (e : Event) (he : stepRank e = 6) :
    (masterTrace e).Pairwise (fun a b => stepRank a < stepRank b) := by
  have hm : (masterTrace e).map stepRank = [0, 1, 2, 3, 4, 5, 6, 7, 8] := by
    simp only [masterTrace, List.map_cons, List.map_append, List.map_nil,
      List.cons_append, List.nil_append, he]
    norm_num [stepRank]
  have h2 : ((masterTrace e).map stepRank).Pairwise (fun a b => a < b) := by
    rw [hm]
    decide
  exact List.pairwise_map.mp h2

/-- Every destructor trace is a sublist of the full teardown trace. -/
lemma dispose_trace_sublist (cfg : CefSharpSettings) (o : Bool)
    (s : AdapterState) :
    List.Sublist (dispose cfg o s).trace
      (masterTrace (if 0 < cfg.wcfTimeout then Event.closeHost cfg.wcfTimeout
                    else Event.abortHost)) := by
  rw [dispose_eq]
  refine List.Sublist.cons₂ _ ?_
  refine List.Sublist.append (List.Sublist.append (List.Sublist.append
    (List.Sublist.append (ite_sublist _ _) (ite_sublist _ _))
    (ite_sublist _ _)) ?_) ?_
  · split
    · by_cases ht : 0 < cfg.wcfTimeout <;>
        simp only [ht, if_true, if_false] <;> exact List.Sublist.refl _
    · exact List.nil_sublist _
  · split
    · exact List.nil_sublist _
    · exact List.Sublist.append (ite_sublist _ _) (ite_sublist _ _)

/-- Every destructor trace is strictly increasing in the teardown step
rank: actions of earlier protocol steps come strictly before actions of
later steps, and no rank repeats. -/
lemma dispose_trace_pairwise (cfg : CefSharpSettings) (o : Bool)
    (s : AdapterState) :
    ((dispose cfg o s).trace).Pairwise
      (fun a b => stepRank a < stepRank b) := by
  refine List.Pairwise.sublist (dispose_trace_sublist cfg o s) ?_
  refine masterTrace_pairwise _ ?_
  split <;> rfl

/-- A strictly rank-increasing list has no duplicate entries. -/
lemma nodup_of_rank_pairwise {l : List Event}
    (h : l.Pairwise (fun a b => stepRank a < stepRank b)) : l.Nodup := by
  refine h.imp ?_
  intro a b hab
  intro he
  subst he
  exact lt_irrefl _ hab

/-- A fully populated adapter state: as after construction, with a live
browser wrapper and a service host attached. -/
def sampleFull : AdapterState :=
  { clientAdapter := some ClientAdapterKind.windowed
    browserProcessServiceHost := some 7
    webBrowserInternal := some 1
    javaScriptObjectRepository := true
    javascriptCallbackFactory := some ClientAdapterKind.windowed
    methodRunnerQueue := some
      { scheduler := 0, repoBound := true, subscribed := true, started := true }
    browserWrapper := some 2
    isDisposed := false }

/-- Settings with WCF enabled and a positive graceful close timeout. -/
def sampleWcf : CefSharpSettings :=
  { wcfEnabled := true, wcfTimeout := 5 }

/-- C1: the explicit teardown runs its steps in exactly the protocol
order: the disposed flag first, then queue unsubscribe and stop, then
the client adapter release strictly before any browser close, then
browser close with force set followed by the wrapper release, then the
service host close or abort, and last the back reference and the object
repository; every guard is evaluated even when an earlier resource was
absent, so each block appears in the trace exactly when its resource is
present. -/
theorem dispose_teardown_order (cfg : CefSharpSettings) (s : AdapterState) :
    (∀ o, ((dispose cfg o s).trace).Pairwise
      (fun a b => stepRank a < stepRank b)) ∧
    ((dispose cfg false s).trace.head? = some Event.setDisposed) ∧
    (Event.unsubscribeQueue ∈ (dispose cfg false s).trace ↔
      s.methodRunnerQueue.isSome) ∧
    (Event.stopQueue ∈ (dispose cfg false s).trace ↔
      s.methodRunnerQueue.isSome) ∧
    (Event.releaseClientAdapter ∈ (dispose cfg false s).trace ↔
      s.clientAdapter.isSome) ∧
    (Event.closeBrowser true ∈ (dispose cfg false s).trace ↔
      s.browserWrapper.isSome) ∧
    (Event.closeBrowser false ∉ (dispose cfg false s).trace) ∧
    (Event.releaseBrowserWrapper ∈ (dispose cfg false s).trace ↔
      s.browserWrapper.isSome) ∧
    ((Event.closeHost cfg.wcfTimeout ∈ (dispose cfg false s).trace ∨
        Event.abortHost ∈ (dispose cfg false s).trace) ↔
      (cfg.wcfEnabled && s.browserProcessServiceHost.isSome) = true) ∧
    (Event.releaseWebBrowser ∈ (dispose cfg false s).trace ↔
      s.webBrowserInternal.isSome) ∧
    (Event.releaseRepository ∈ (dispose cfg false s).trace ↔
      s.javaScriptObjectRepository = true) := by
  refine ⟨fun o => dispose_trace_pairwise cfg o s, ?_⟩
  rw [dispose_eq]
  simp only [disposeThrew, Bool.false_and, Bool.and_false, if_false,
    Bool.false_eq_true, ite_false]
  split_ifs <;> simp_all

/-- A fully populated adapter state on which disposal has started. -/
def sampleDisposed : AdapterState :=
  { sampleFull with isDisposed := true }

/-- C1 witness: at a concrete fully populated state with WCF enabled,
the teardown trace is strictly rank ordered and never closes the
browser without the force flag. -/
theorem dispose_teardown_order_witness :
    ((dispose sampleWcf false sampleFull).trace).Pairwise
      (fun a b => stepRank a < stepRank b) ∧
    Event.closeBrowser false ∉ (dispose sampleWcf false sampleFull).trace :=
  ⟨(dispose_teardown_order sampleWcf sampleFull).1 false,
   (dispose_teardown_order sampleWcf sampleFull).2.2.2.2.2.2.1⟩

/-- C3: OnAfterBrowserCreated invoked after disposal has started leaves
every field of the adapter state unchanged, does not retain the passed
handle, and releases it immediately. -/
theorem onAfterBrowserCreated_after_dispose (s : AdapterState) (b : Nat)
    (h : s.isDisposed = true) :
    (onAfterBrowserCreated s b).1 = s ∧
    (onAfterBrowserCreated s b).2 = [Event.releaseBrowserImmediately] ∧
    Event.retainBrowser b ∉ (onAfterBrowserCreated s b).2 := by
  simp [onAfterBrowserCreated, h]

/-- C3 witness: at a concrete disposed state and handle 5, the call
changes nothing. -/
theorem onAfterBrowserCreated_after_dispose_witness :
    sampleDisposed.isDisposed = true ∧
    (onAfterBrowserCreated sampleDisposed 5).1 = sampleDisposed :=
  ⟨rfl, (onAfterBrowserCreated_after_dispose sampleDisposed 5 rfl).1⟩

/-- C5: the disposed flag is false from construction; the destructor
sets it true as its first action and leaves it true; the finalizer and
OnAfterBrowserCreated never change it; and once it is true,
OnAfterBrowserCreated mutates nothing and releases the incoming handle
immediately, so no native resource is touched. -/
theorem isDisposed_lifecycle :
    (∀ w osr sch, (construct w osr sch).isDisposed = false) ∧
    (∀ cfg o s, ((dispose cfg o s).trace.head? = some Event.setDisposed) ∧
      (dispose cfg o s).state.isDisposed = true) ∧
    (∀ s, (finalizeAdapter s).1.isDisposed = s.isDisposed) ∧
    (∀ s b, (onAfterBrowserCreated s b).1.isDisposed = s.isDisposed) ∧
    (∀ s b, s.isDisposed = true →
      (onAfterBrowserCreated s b).1 = s ∧
      (onAfterBrowserCreated s b).2 = [Event.releaseBrowserImmediately]) := by
  refine ⟨?_, ?_, ?_, ?_, ?_⟩
  · intro w osr sch
    simp [construct]
  · intro cfg o s
    rw [dispose_eq]
    simp
  · intro s
    simp [finalizeAdapter]
  · intro s b
    by_cases h : s.isDisposed = true <;> simp [onAfterBrowserCreated, h]
  · intro s b h
    simp [onAfterBrowserCreated, h]

/-- C5 witness: the flag lifecycle at concrete inputs. -/
theorem isDisposed_lifecycle_witness :
    (construct 1 false 0).isDisposed = false ∧
    (dispose sampleWcf false sampleFull).state.isDisposed = true ∧
    (onAfterBrowserCreated sampleDisposed 5).1 = sampleDisposed :=
  ⟨isDisposed_lifecycle.1 1 false 0,
   (isDisposed_lifecycle.2.1 sampleWcf false sampleFull).2,
   (isDisposed_lifecycle.2.2.2.2 sampleDisposed 5 rfl).1⟩

/-- C4: disposal is idempotent: after a completed run of the
destructor, a second run (whatever the close oracle says) leaves the
state unchanged, throws nothing, performs no action beyond reassigning
the disposed flag, and across the two runs no resource stop, release,
close or abort action is ever duplicated. -/
theorem dispose_idempotent (cfg : CefSharpSettings) (o2 : Bool)
    (s : AdapterState) :
    (dispose cfg o2 (dispose cfg false s).state).state =
      (dispose cfg false s).state ∧
    (dispose cfg o2 (dispose cfg false s).state).threw = false ∧
    (dispose cfg o2 (dispose cfg false s).state).trace =
      [Event.setDisposed] ∧
    (((dispose cfg false s).trace ++
        (dispose cfg o2 (dispose cfg false s).state).trace).filter
      isResourceRelease).Nodup := by
  have hn : (((dispose cfg false s).trace).filter isResourceRelease).Nodup :=
    (nodup_of_rank_pairwise (dispose_trace_pairwise cfg false s)).filter _
  have h2 : dispose cfg o2 (dispose cfg false s).state =
      { state := (dispose cfg false s).state,
        trace := [Event.setDisposed], threw := false } := by
    rw [dispose_eq cfg false s, dispose_eq]
    simp only [disposeThrew, Bool.false_and, Bool.and_false,
      Bool.false_eq_true, if_false, ite_false]
    by_cases hw : cfg.wcfEnabled <;> simp [hw]
  refine ⟨?_, ?_, ?_, ?_⟩
  · rw [h2]
  · rw [h2]
  · rw [h2]
  · rw [h2]
    simpa [isResourceRelease] using hn

/-- C4 witness: double disposal at a concrete state changes nothing and
emits only the flag assignment. -/
theorem dispose_idempotent_witness :
    (dispose sampleWcf true (dispose sampleWcf false sampleFull).state).state =
      (dispose sampleWcf false sampleFull).state ∧
    (dispose sampleWcf true (dispose sampleWcf false sampleFull).state).trace =
      [Event.setDisposed] :=
  ⟨(dispose_idempotent sampleWcf true sampleFull).1,
   (dispose_idempotent sampleWcf true sampleFull).2.2.1⟩

/-- C6: during disposal with WCF enabled and a service host present,
exactly one host action happens: a graceful close carrying the
configured timeout when the timeout is positive, an abort otherwise;
the abort path is independent of the close timeout oracle and never
throws. -/
theorem dispose_host_close_or_abort (cfg : CefSharpSettings)
    (s : AdapterState) (o : Bool)
    (hw : cfg.wcfEnabled = true) (hh : s.browserProcessServiceHost.isSome) :
    (((dispose cfg o s).trace).filter isHostEvent).length = 1 ∧
    (0 < cfg.wcfTimeout →
      Event.closeHost cfg.wcfTimeout ∈ (dispose cfg o s).trace ∧
      Event.abortHost ∉ (dispose cfg o s).trace) ∧
    (¬ 0 < cfg.wcfTimeout →
      Event.abortHost ∈ (dispose cfg o s).trace ∧
      (∀ t, Event.closeHost t ∉ (dispose cfg o s).trace) ∧
      (dispose cfg o s).threw = false) := by
  rw [dispose_eq]
  simp only [disposeThrew, hw, hh, Bool.and_true, Bool.true_and]
  split_ifs <;> simp_all [isHostEvent] <;> omega

/-- Settings with WCF enabled and a zero close timeout. -/
def sampleWcfZero : CefSharpSettings :=
  { wcfEnabled := true, wcfTimeout := 0 }

/-- Settings with WCF disabled. -/
def sampleNoWcf : CefSharpSettings :=
  { wcfEnabled := false, wcfTimeout := 5 }

/-- C6 witness: with a positive timeout the concrete teardown gracefully
closes the host, and with a zero timeout it aborts it instead. -/
theorem dispose_host_close_or_abort_witness :
    Event.closeHost 5 ∈ (dispose sampleWcf false sampleFull).trace ∧
    Event.abortHost ∈ (dispose sampleWcfZero true sampleFull).trace :=
  ⟨((dispose_host_close_or_abort sampleWcf sampleFull false rfl rfl).2.1
      (by decide)).1,
   ((dispose_host_close_or_abort sampleWcfZero sampleFull true rfl rfl).2.2
      (by decide)).1⟩

/-- C7: the finalizer path releases the client adapter native handle
and nothing else: every other field keeps its value and the only action
it can emit is the client adapter release. -/
theorem finalizer_frame (s : AdapterState) :
    (finalizeAdapter s).1.clientAdapter = none ∧
    (finalizeAdapter s).1.browserProcessServiceHost =
      s.browserProcessServiceHost ∧
    (finalizeAdapter s).1.webBrowserInternal = s.webBrowserInternal ∧
    (finalizeAdapter s).1.javaScriptObjectRepository =
      s.javaScriptObjectRepository ∧
    (finalizeAdapter s).1.javascriptCallbackFactory =
      s.javascriptCallbackFactory ∧
    (finalizeAdapter s).1.methodRunnerQueue = s.methodRunnerQueue ∧
    (finalizeAdapter s).1.browserWrapper = s.browserWrapper ∧
    (finalizeAdapter s).1.isDisposed = s.isDisposed ∧
    (∀ e ∈ (finalizeAdapter s).2, e = Event.releaseClientAdapter) := by
  refine ⟨rfl, rfl, rfl, rfl, rfl, rfl, rfl, rfl, ?_⟩
  intro e he
  by_cases hs : s.clientAdapter.isSome <;>
    simp_all [finalizeAdapter]

/-- C7 witness: the finalizer at a concrete state clears the client
adapter and keeps the browser wrapper. -/
theorem finalizer_frame_witness :
    (finalizeAdapter sampleFull).1.clientAdapter = none ∧
    (finalizeAdapter sampleFull).1.browserWrapper =
      sampleFull.browserWrapper :=
  ⟨(finalizer_frame sampleFull).1,
   (finalizer_frame sampleFull).2.2.2.2.2.2.1⟩

/-- C8: construction selects the render variant exactly for off screen
rendering, stores the back reference, creates the object repository,
wires the callback factory to the created client adapter, creates the
queue against the given scheduler over the repository with the
completion event subscribed and the queue started, holds no browser
wrapper or service host, and leaves the disposed flag false. -/
theorem construct_wires_components (w sch : Nat) (osr : Bool) :
    (construct w osr sch).clientAdapter =
      some (if osr then ClientAdapterKind.render
            else ClientAdapterKind.windowed) ∧
    (construct w osr sch).webBrowserInternal = some w ∧
    (construct w osr sch).javaScriptObjectRepository = true ∧
    (construct w osr sch).javascriptCallbackFactory =
      (construct w osr sch).clientAdapter ∧
    (construct w osr sch).methodRunnerQueue =
      some { scheduler := sch, repoBound := true,
             subscribed := true, started := true } ∧
    (construct w osr sch).browserWrapper = none ∧
    (construct w osr sch).browserProcessServiceHost = none ∧
    (construct w osr sch).isDisposed = false := by
  simp [construct]

/-- C8 witness: constructing with off screen rendering yields the
render variant, started queue and a false disposed flag. -/
theorem construct_wires_components_witness :
    (construct 1 true 3).clientAdapter = some ClientAdapterKind.render ∧
    (construct 1 true 3).isDisposed = false :=
  ⟨(construct_wires_components 1 3 true).1,
   (construct_wires_components 1 3 true).2.2.2.2.2.2.2⟩

/-- Enqueueing accumulates requests at the back of the pending list and
touches no completion. -/
lemma foldl_mrqEnqueue (rs : List Nat) (q : MethodRunnerQueueModel) :
    (rs.foldl mrqEnqueue q).pending = q.pending ++ rs ∧
    (rs.foldl mrqEnqueue q).completions = q.completions := by
  induction rs generalizing q with
  | nil => simp
  | cons r rs ih =>
    simp only [List.foldl_cons]
    constructor
    · rw [(ih (mrqEnqueue q r)).1]
      simp [mrqEnqueue]
    · rw [(ih (mrqEnqueue q r)).2]
      rfl

/-- C9: the method invocation queue is FIFO: starting after any
sequence of enqueues yields completion notifications in exactly the
enqueue order; in particular requests A, B, C enqueued before start
complete in the order A, B, C. -/
theorem methodRunnerQueue_fifo :
    (∀ rs : List Nat,
      (mrqStart (rs.foldl mrqEnqueue mrqEmpty)).completions = rs) ∧
    (∀ a b c : Nat,
      (mrqStart (mrqEnqueue (mrqEnqueue (mrqEnqueue mrqEmpty a) b)
        c)).completions = [a, b, c]) := by
  constructor
  · intro rs
    have h := foldl_mrqEnqueue rs mrqEmpty
    simp [mrqStart, mrqEmpty] at h ⊢
    simp [h]
  · intro a b c
    simp [mrqStart, mrqEnqueue, mrqEmpty]

/-- C10: after a completed explicit teardown the queue, browser
wrapper, back reference, repository and client adapter fields are all
cleared, while the service host field is cleared exactly when
WcfEnabled was set at disposal time: with WcfEnabled false an existing
host reference survives and is neither closed nor aborted. -/
theorem dispose_final_state (cfg : CefSharpSettings) (s : AdapterState) :
    (dispose cfg false s).state.methodRunnerQueue = none ∧
    (dispose cfg false s).state.browserWrapper = none ∧
    (dispose cfg false s).state.webBrowserInternal = none ∧
    (dispose cfg false s).state.javaScriptObjectRepository = false ∧
    (dispose cfg false s).state.clientAdapter = none ∧
    (dispose cfg false s).state.browserProcessServiceHost =
      (if cfg.wcfEnabled then none else s.browserProcessServiceHost) ∧
    (dispose cfg false s).threw = false ∧
    (cfg.wcfEnabled = false →
      ((dispose cfg false s).trace).filter isHostEvent = []) := by
  rw [dispose_eq]
  refine ⟨rfl, rfl, ?_, ?_, rfl, ?_, ?_, ?_⟩
  · simp [disposeThrew]
  · simp [disposeThrew]
  · simp [disposeThrew]
  · simp [disposeThrew]
  · intro hw
    simp only [disposeThrew, hw, Bool.false_and, Bool.and_false,
      Bool.false_eq_true, if_false, ite_false]
    split_ifs <;> simp_all [isHostEvent]

/-- C10 witness: with WCF disabled the concrete teardown leaves the
host reference in place and performs no host action. -/
theorem dispose_final_state_witness :
    (dispose sampleNoWcf false sampleFull).state.browserProcessServiceHost =
      sampleFull.browserProcessServiceHost ∧
    ((dispose sampleNoWcf false sampleFull).trace).filter isHostEvent = [] :=
  ⟨(dispose_final_state sampleNoWcf sampleFull).2.2.2.2.2.1,
   (dispose_final_state sampleNoWcf sampleFull).2.2.2.2.2.2.2 rfl⟩

/-- C2 counterexample: with WCF enabled, timeout 5 and a host present,
a graceful close that exceeds its timeout is not followed by any abort,
and the remaining teardown steps do not complete: the destructor
throws and the repository is never released. -/
theorem host_close_timeout_counterexample :
    Event.abortHost ∉ (dispose sampleWcf true sampleFull).trace ∧
    (dispose sampleWcf true sampleFull).threw = true ∧
    Event.releaseRepository ∉ (dispose sampleWcf true sampleFull).trace ∧
    (dispose sampleWcf true sampleFull).state.javaScriptObjectRepository =
      true := by
  decide

/-- C2 amended: when the graceful close is attempted (WCF enabled,
positive timeout, host present) and exceeds its timeout, no abort is
performed; the failure escapes the destructor and the remaining steps
do not complete: the host field keeps its reference and neither the
back reference nor the repository is released. -/
theorem host_close_timeout_behavior (cfg : CefSharpSettings)
    (s : AdapterState) (hw : cfg.wcfEnabled = true)
    (ht : 0 < cfg.wcfTimeout) (hh : s.browserProcessServiceHost.isSome) :
    (dispose cfg true s).threw = true ∧
    Event.closeHost cfg.wcfTimeout ∈ (dispose cfg true s).trace ∧
    Event.abortHost ∉ (dispose cfg true s).trace ∧
    Event.releaseRepository ∉ (dispose cfg true s).trace ∧
    Event.releaseWebBrowser ∉ (dispose cfg true s).trace ∧
    (dispose cfg true s).state.browserProcessServiceHost =
      s.browserProcessServiceHost ∧
    (dispose cfg true s).state.javaScriptObjectRepository =
      s.javaScriptObjectRepository := by
  rw [dispose_eq]
  simp only [disposeThrew, hw, hh, Bool.and_true, Bool.true_and, ht,
    decide_eq_true_eq, if_true, decide_true_eq_true]
  split_ifs <;> simp_all

/-- C2 amended witness: the concrete timed out close at the fully
populated state. -/
theorem host_close_timeout_behavior_witness :
    (dispose sampleWcf true sampleFull).threw = true ∧
    Event.closeHost 5 ∈ (dispose sampleWcf true sampleFull).trace :=
  ⟨(host_close_timeout_behavior sampleWcf sampleFull rfl (by decide) rfl).1,
   (host_close_timeout_behavior sampleWcf sampleFull rfl (by decide) rfl).2.1⟩

end ManagedCef

